import Mathlib

/-!
# Verification of the minimal-ds-client specification against its source

A shallow embedding of the `minimal-ds-client` repository (crates
`minimal_ds_types` and `api_client`) together with proofs settling the
frozen claims about it.

Bytes are modelled as `Nat` (values below 256 on real wire data), byte
strings as `List Nat`, fallible Rust functions as `Except`, and the
`&mut self` state mutation of `ApiClient::fetch_messages` as explicit
state passing.  Types and functions keep the Rust source's names.

External collaborator crates (`tls_codec`, `uuid`, `openmls`,
`mls_assist`, `reqwest`) are out of scope of the repository; where a
claim depends on their behaviour, the corresponding definition is
modelled from the specification's description of the interface and says
so in its doc comment.
-/

namespace MinimalDs

/-- Errors of the external `tls_codec` crate, as surfaced by the
repository's code (`tls_codec::Error`).  Only the variants the
repository's code paths can produce are modelled. -/
inductive TlsError where
  | EndOfStream
  | TrailingData
  | InvalidVectorLength
  | UnknownValue (v : Nat)
  | DecodingError (s : String)
  deriving DecidableEq, Repr

/-- Error of the external `uuid` crate's `Uuid::from_slice`: the slice
length was not 16 bytes. -/
inductive UuidError where
  | ByteLength (len : Nat)
  deriving DecidableEq, Repr

/-- `UUID_LENGTH` from `types/src/lib.rs`. -/
def UUID_LENGTH : Nat := 16

/-- `TlsUuid` from `types/src/lib.rs`: a wrapper around a `uuid::Uuid`,
which is 16 raw bytes; the `Uuid` is modelled by its byte string. -/
structure TlsUuid where
  id : List Nat
  deriving DecidableEq, Repr

/-- `impl tls_codec::Serialize for TlsUuid` (`types/src/lib.rs`
lines 33-38): writes the 16 raw UUID bytes, no length prefix. -/
def TlsUuid.tls_serialize (u : TlsUuid) : List Nat :=
  u.id

/-- `impl tls_codec::DeserializeBytes for TlsUuid` (`types/src/lib.rs`
lines 40-53): takes the first `UUID_LENGTH` bytes (error `EndOfStream`
when fewer are available) and returns the remainder. -/
def TlsUuid.tls_deserialize_bytes (bytes : List Nat) :
    Except TlsError (TlsUuid × List Nat) :=
  if bytes.length < UUID_LENGTH then
    .error .EndOfStream
  else
    .ok (⟨bytes.take UUID_LENGTH⟩, bytes.drop UUID_LENGTH)

/-- `DsClientId` from `types/src/lib.rs`: a newtype over `TlsUuid`. -/
structure DsClientId where
  id : TlsUuid
  deriving DecidableEq, Repr

/-- `DsGroupId` from `types/src/lib.rs`: a newtype over `TlsUuid`. -/
structure DsGroupId where
  id : TlsUuid
  deriving DecidableEq, Repr

/-- Derived `tls_codec::Serialize` for `DsClientId`: serialize the
single field. -/
def DsClientId.tls_serialize (c : DsClientId) : List Nat :=
  c.id.tls_serialize

/-- Derived `tls_codec::DeserializeBytes` for `DsClientId`: deserialize
the single field. -/
def DsClientId.tls_deserialize_bytes (bytes : List Nat) :
    Except TlsError (DsClientId × List Nat) :=
  match TlsUuid.tls_deserialize_bytes bytes with
  | .ok (u, rest) => .ok (⟨u⟩, rest)
  | .error e => .error e

/-- Derived `tls_codec::Serialize` for `DsGroupId`: serialize the single
field. -/
def DsGroupId.tls_serialize (g : DsGroupId) : List Nat :=
  g.id.tls_serialize

/-- Derived `tls_codec::DeserializeBytes` for `DsGroupId`: deserialize
the single field. -/
def DsGroupId.tls_deserialize_bytes (bytes : List Nat) :
    Except TlsError (DsGroupId × List Nat) :=
  match TlsUuid.tls_deserialize_bytes bytes with
  | .ok (u, rest) => .ok (⟨u⟩, rest)
  | .error e => .error e

/-- Modelled from the spec: the length prefix of the external
`tls_codec` crate's variable-length encodings (the spec's
"length-prefixed byte string").  The top two bits of the first byte give
the width of the length field (1, 2, 4 or 8 bytes); the remaining six
bits and the following bytes, big-endian, give the content length.
Insufficient bytes are an `EndOfStream` framing error. -/
def vlDecodeLength (bytes : List Nat) : Except TlsError (Nat × List Nat) :=
  match bytes with
  | [] => .error .EndOfStream
  | b :: rest =>
    let lenlen := 2 ^ (b / 64)
    if rest.length < lenlen - 1 then
      .error .EndOfStream
    else
      .ok ((rest.take (lenlen - 1)).foldl (fun acc x => acc * 256 + x) (b % 64),
        rest.drop (lenlen - 1))

/-- Modelled from the spec: `tls_codec::VLBytes::tls_deserialize_bytes`
(external crate), per the spec's "length-prefixed byte string" whose
decode "must reject an encoded length inconsistent with the remaining
buffer (`EndOfStream`-class error)". -/
def VLBytes.tls_deserialize_bytes (bytes : List Nat) :
    Except TlsError (List Nat × List Nat) :=
  match vlDecodeLength bytes with
  | .error e => .error e
  | .ok (len, rest) =>
    if rest.length < len then
      .error .EndOfStream
    else
      .ok (rest.take len, rest.drop len)

/-- Modelled from the spec: `tls_codec`'s `tls_deserialize_exact_bytes`
(external crate): deserialize and reject a non-empty remainder as a
framing error. -/
def VLBytes.tls_deserialize_exact_bytes (bytes : List Nat) :
    Except TlsError (List Nat) :=
  match VLBytes.tls_deserialize_bytes bytes with
  | .error e => .error e
  | .ok (v, []) => .ok v
  | .ok (_, _ :: _) => .error .TrailingData

/-- `uuid::Uuid::from_slice` (external crate): succeeds exactly on
16-byte slices, otherwise reports the offending length. -/
def Uuid.from_slice (bytes : List Nat) : Except UuidError (List Nat) :=
  if bytes.length = UUID_LENGTH then
    .ok bytes
  else
    .error (.ByteLength bytes.length)

/-- `DsClientIdError` from `types/src/lib.rs`: a `tls_codec` failure
becomes `InvalidCredential`, a `uuid` failure becomes `InvalidUuid`
(via the `#[from]` conversions). -/
inductive DsClientIdError where
  | InvalidCredential (e : TlsError)
  | InvalidUuid (e : UuidError)
  deriving DecidableEq, Repr

/-- `impl TryFrom<&[u8]> for DsClientId` (`types/src/lib.rs` lines
121-128): `Uuid::from_slice` then wrap; the `uuid` error converts to
`InvalidUuid`. -/
def DsClientId.try_from (bytes : List Nat) :
    Except DsClientIdError DsClientId :=
  match Uuid.from_slice bytes with
  | .ok u => .ok ⟨⟨u⟩⟩
  | .error e => .error (.InvalidUuid e)

/-- `DsClientId::from_serialized_credential` (`types/src/lib.rs` lines
93-100): decode the serialized credential content as an exact `VLBytes`
(the identity), then `try_from` its content; a `tls_codec` failure
converts to `InvalidCredential`. -/
def DsClientId.from_serialized_credential (serialized_credential : List Nat) :
    Except DsClientIdError DsClientId :=
  match VLBytes.tls_deserialize_exact_bytes serialized_credential with
  | .error e => .error (.InvalidCredential e)
  | .ok identity => DsClientId.try_from identity

/-- `AuthToken` from `types/src/lib.rs`: a 32-byte secret, modelled by
its byte string. -/
structure AuthToken where
  token : List Nat
  deriving DecidableEq, Repr

/-- `ClientCredentials` from `types/src/lib.rs`. -/
structure ClientCredentials where
  client_id : DsClientId
  token : AuthToken
  deriving DecidableEq, Repr

/-- `DsQueueMessage` from `types/src/lib.rs`: an opaque byte payload. -/
structure DsQueueMessage where
  message : List Nat
  deriving DecidableEq, Repr

/-- `NumberedDsQueueMessage` from `types/src/lib.rs`: a queued payload
together with its DS-assigned sequence number (`u64`, modelled as
`Nat`; the code only copies it, never computes with it). -/
structure NumberedDsQueueMessage where
  message : DsQueueMessage
  sequence_number : Nat
  deriving DecidableEq, Repr

/-- `FetchMessagesResponse` from `types/src/requests.rs`. -/
structure FetchMessagesResponse where
  messages : List NumberedDsQueueMessage
  deriving DecidableEq, Repr

/-- The external `openmls` crate's `KeyPackageIn`: opaque to the
repository, modelled as an uninterpreted value. -/
structure KeyPackageIn where
  val : Nat
  deriving DecidableEq, Repr

/-- The external `openmls` crate's `MlsMessageIn`: opaque to the
repository (the core "does not interpret message payload contents"),
modelled by the bytes it was decoded from. -/
structure MlsMessageIn where
  val : List Nat
  deriving DecidableEq, Repr

/-- The external `openmls` crate's `RatchetTree`: opaque to the
repository, modelled as an uninterpreted value. -/
structure RatchetTree where
  val : Nat
  deriving DecidableEq, Repr

/-- The external `openmls` content type of a framed message, as far as
the repository's local validation observes it: commit or not. -/
inductive ContentType where
  | application
  | proposal
  | commit
  deriving DecidableEq, Repr

/-- The external `openmls` crate's `KeyPackage` (out direction), reduced
to what the repository reads from it:
`key_package.leaf_node().credential().serialized_content()`. -/
structure KeyPackage where
  serialized_credential_content : List Nat
  deriving DecidableEq, Repr

/-- The external `openmls` crate's `MlsMessageBodyOut`: the body
variants of an outbound MLS message.  Payloads the repository never
inspects are uninterpreted `Nat` values. -/
inductive MlsMessageBodyOut where
  | PublicMessage (content_type : ContentType) (payload : Nat)
  | PrivateMessage (content_type : ContentType) (payload : Nat)
  | Welcome (payload : Nat)
  | GroupInfo (payload : Nat)
  | KeyPackage (key_package : KeyPackage)
  deriving DecidableEq, Repr

/-- The external `openmls` crate's `MlsMessageOut`, reduced to its
`body()` accessor, which is all the repository reads from it. -/
structure MlsMessageOut where
  body : MlsMessageBodyOut
  deriving DecidableEq, Repr

/-- `MlsMessageBodyOut` is a welcome-kind body
(the `matches!(.., MlsMessageBodyOut::Welcome(_))` test). -/
def MlsMessageBodyOut.isWelcome : MlsMessageBodyOut → Bool
  | .Welcome _ => true
  | _ => false

/-- `MlsMessageBodyOut` is a commit: a public or private framed message
whose content type is commit. -/
def MlsMessageBodyOut.isCommit : MlsMessageBodyOut → Bool
  | .PublicMessage .commit _ => true
  | .PrivateMessage .commit _ => true
  | _ => false

/-- `AssistedMessageError` from the external `mls_assist` crate, as
matched in `api_client/src/lib.rs` lines 214-218. -/
inductive AssistedMessageError where
  | InvalidMessage
  | MissingGroupInfo
  deriving DecidableEq, Repr

/-- The external `mls_assist` crate's `AssistedMessageOut`: the message
together with its optional companion group info. -/
structure AssistedMessageOut where
  message : MlsMessageOut
  group_info_option : Option MlsMessageOut
  deriving DecidableEq, Repr

/-- Modelled from the spec: `AssistedMessageOut::new` from the external
`mls_assist` crate.  Per the spec, the message must be "a
commit/application message" (a public or private framed message; any
other body is `InvalidMessage`) "requiring a companion group info
exactly when the message kind demands it": a commit without group info
is `MissingGroupInfo`. -/
def AssistedMessageOut.new (message : MlsMessageOut)
    (group_info_option : Option MlsMessageOut) :
    Except AssistedMessageError AssistedMessageOut :=
  match message.body with
  | .PublicMessage ct _ =>
    if ct = .commit then
      match group_info_option with
      | some _ => .ok ⟨message, group_info_option⟩
      | none => .error .MissingGroupInfo
    else
      .ok ⟨message, group_info_option⟩
  | .PrivateMessage ct _ =>
    if ct = .commit then
      match group_info_option with
      | some _ => .ok ⟨message, group_info_option⟩
      | none => .error .MissingGroupInfo
    else
      .ok ⟨message, group_info_option⟩
  | _ => .error .InvalidMessage

/-- `MinimalDsResponseIn` from `api_client/src/requests.rs` lines 19-27:
the inbound response envelope, variants in declared order `Ok`,
`AuthToken`, `KeyPackageOption`, `FetchMessages`, `ListClients`
(wire tags 0 through 4). -/
inductive MinimalDsResponseIn where
  | Ok
  | AuthToken (token : AuthToken)
  | KeyPackageOption (key_package_option : Option KeyPackageIn)
  | FetchMessages (response : FetchMessagesResponse)
  | ListClients (ids : List DsClientId)
  deriving DecidableEq, Repr

/-- `MinimalDsResponseIn` is the `AuthToken` variant. -/
def MinimalDsResponseIn.isAuthToken : MinimalDsResponseIn → Bool
  | .AuthToken _ => true
  | _ => false

/-- `MinimalDsResponseIn` is the `KeyPackageOption` variant. -/
def MinimalDsResponseIn.isKeyPackageOption : MinimalDsResponseIn → Bool
  | .KeyPackageOption _ => true
  | _ => false

/-- `MinimalDsResponseIn` is the `FetchMessages` variant. -/
def MinimalDsResponseIn.isFetchMessages : MinimalDsResponseIn → Bool
  | .FetchMessages _ => true
  | _ => false

/-- `MinimalDsResponseIn` is the `ListClients` variant. -/
def MinimalDsResponseIn.isListClients : MinimalDsResponseIn → Bool
  | .ListClients _ => true
  | _ => false

/-- `MinimalDsMessageOut` from `api_client/src/requests.rs` lines 29-42:
the outbound request envelope, with the request structs of
`api_client/src/requests.rs` and `types/src/requests.rs` inlined as
constructor fields (in their declared field order). -/
inductive MinimalDsMessageOut where
  | RegisterClient (key_packages : List MlsMessageOut)
      (last_resort_key_package : MlsMessageOut)
  | UploadKeyPackages (credentials : ClientCredentials)
      (key_packages : List MlsMessageOut)
      (last_resort_key_package : MlsMessageOut)
  | ListClients
  | CreateGroup (credentials : ClientCredentials)
      (group_info : MlsMessageOut) (ratchet_tree : RatchetTree)
  | FetchKeyPackage (client_id : DsClientId)
  | DistributeGroupMessage (credentials : ClientCredentials)
      (message : AssistedMessageOut)
  | DistributeWelcome (message : MlsMessageOut)
  | FetchMessages (credentials : ClientCredentials)
      (last_seen_sequence_number : Nat) (number_of_messages : Nat)
  | DeleteGroup (credentials : ClientCredentials) (group_id : DsGroupId)
  | DeleteClient (credentials : ClientCredentials) (client_id : DsClientId)
  deriving DecidableEq, Repr

/-- Modelled from the spec: derived `tls_codec` decoding of a `u64`
field, eight big-endian raw bytes. -/
def decodeU64 (bytes : List Nat) : Except TlsError (Nat × List Nat) :=
  if bytes.length < 8 then
    .error .EndOfStream
  else
    .ok ((bytes.take 8).foldl (fun acc b => acc * 256 + b) 0, bytes.drop 8)

/-- Modelled from the spec: derived `tls_codec` decoding of the 32-byte
fixed-size `AuthToken` ("fixed-size values ... encode as raw fixed-width
bytes, no length prefix"). -/
def AuthToken.tls_deserialize_bytes (bytes : List Nat) :
    Except TlsError (AuthToken × List Nat) :=
  if bytes.length < 32 then
    .error .EndOfStream
  else
    .ok (⟨bytes.take 32⟩, bytes.drop 32)

/-- Derived `tls_codec` decoding of `DsQueueMessage`: its single
`Vec<u8>` field is a variable-length byte string. -/
def DsQueueMessage.tls_deserialize_bytes (bytes : List Nat) :
    Except TlsError (DsQueueMessage × List Nat) :=
  match VLBytes.tls_deserialize_bytes bytes with
  | .ok (v, rest) => .ok (⟨v⟩, rest)
  | .error e => .error e

/-- Derived `tls_codec` decoding of `NumberedDsQueueMessage`: the
payload field, then the `u64` sequence number, in declared order. -/
def NumberedDsQueueMessage.tls_deserialize_bytes (bytes : List Nat) :
    Except TlsError (NumberedDsQueueMessage × List Nat) := do
  let (m, rest) ← DsQueueMessage.tls_deserialize_bytes bytes
  let (sq, rest2) ← decodeU64 rest
  pure (⟨m, sq⟩, rest2)

/-- Modelled from the spec: element loop of the derived `tls_codec`
decoding of a sequence ("decoding collects into an ordered sequence"):
decode elements until the length-delimited window is consumed.  The
fuel argument (the window length suffices, since every element consumes
at least one byte) makes the recursion structural. -/
def decodeElems (dec : List Nat → Except TlsError (α × List Nat)) :
    Nat → List Nat → Except TlsError (List α)
  | _, [] => .ok []
  | 0, _ :: _ => .error .EndOfStream
  | fuel + 1, b :: bs => do
    let (a, rest) ← dec (b :: bs)
    let tl ← decodeElems dec fuel rest
    pure (a :: tl)

/-- Modelled from the spec: derived `tls_codec` decoding of a sequence
("sequences encode length-prefixed with each element encoded in
order"): a variable-length byte count, then that many bytes of
elements. -/
def tlsVecDecode (dec : List Nat → Except TlsError (α × List Nat))
    (bytes : List Nat) : Except TlsError (List α × List Nat) := do
  let (len, rest) ← vlDecodeLength bytes
  if rest.length < len then
    .error .EndOfStream
  else do
    let elems ← decodeElems dec len (rest.take len)
    pure (elems, rest.drop len)

/-- Derived `tls_codec` decoding of `FetchMessagesResponse`: its single
field is a sequence of `NumberedDsQueueMessage`. -/
def FetchMessagesResponse.tls_deserialize_bytes (bytes : List Nat) :
    Except TlsError (FetchMessagesResponse × List Nat) :=
  match tlsVecDecode NumberedDsQueueMessage.tls_deserialize_bytes bytes with
  | .ok (ms, rest) => .ok (⟨ms⟩, rest)
  | .error e => .error e

/-- Modelled from the spec: derived `tls_codec` decoding of an
`Option`: one byte, 0 for absent, 1 for present followed by the
payload; any other byte is rejected.  The payload decoder for the
external `KeyPackageIn` is a parameter. -/
def decodeOptionKeyPackageIn
    (kpDec : List Nat → Except TlsError (KeyPackageIn × List Nat)) :
    List Nat → Except TlsError (Option KeyPackageIn × List Nat)
  | [] => .error .EndOfStream
  | b :: rest =>
    if b = 0 then
      .ok (none, rest)
    else if b = 1 then
      match kpDec rest with
      | .ok (kp, rest2) => .ok (some kp, rest2)
      | .error e => .error e
    else
      .error (.UnknownValue b)

/-- Modelled from the spec: the derived `tls_codec` decoding of the
response envelope `MinimalDsResponseIn` (`api_client/src/requests.rs`
lines 19-27): "a single discriminant byte followed by the variant's own
encoding, in the exact declared variant order — decode must reject
unknown discriminants".  The decoder for the external `KeyPackageIn`
payload is a parameter. -/
def MinimalDsResponseIn.tls_deserialize_bytes
    (kpDec : List Nat → Except TlsError (KeyPackageIn × List Nat)) :
    List Nat → Except TlsError (MinimalDsResponseIn × List Nat)
  | [] => .error .EndOfStream
  | tag :: rest =>
    if tag = 0 then
      .ok (.Ok, rest)
    else if tag = 1 then
      match AuthToken.tls_deserialize_bytes rest with
      | .ok (t, rest2) => .ok (.AuthToken t, rest2)
      | .error e => .error e
    else if tag = 2 then
      match decodeOptionKeyPackageIn kpDec rest with
      | .ok (kp, rest2) => .ok (.KeyPackageOption kp, rest2)
      | .error e => .error e
    else if tag = 3 then
      match FetchMessagesResponse.tls_deserialize_bytes rest with
      | .ok (r, rest2) => .ok (.FetchMessages r, rest2)
      | .error e => .error e
    else if tag = 4 then
      match tlsVecDecode DsClientId.tls_deserialize_bytes rest with
      | .ok (ids, rest2) => .ok (.ListClients ids, rest2)
      | .error e => .error e
    else
      .error (.UnknownValue tag)

/-- `MinimalDsResponseIn::tls_deserialize_exact_bytes`, as called in
`DsConnection::send_message`: decode and reject a non-empty remainder
as a framing error. -/
def MinimalDsResponseIn.tls_deserialize_exact_bytes
    (kpDec : List Nat → Except TlsError (KeyPackageIn × List Nat))
    (bytes : List Nat) : Except TlsError MinimalDsResponseIn :=
  match MinimalDsResponseIn.tls_deserialize_bytes kpDec bytes with
  | .error e => .error e
  | .ok (r, []) => .ok r
  | .ok (_, _ :: _) => .error .TrailingData

/-- `SendMessageError` from `api_client/src/errors.rs`.  `ReqwestError`
covers the external transport failures (connection errors and body-read
failures), carried opaquely. -/
inductive SendMessageError where
  | ReqwestError
  | NetworkError (status : Nat)
  | MinimalDsError (s : String)
  | PayloadSerializationError (e : TlsError)
  deriving DecidableEq, Repr

/-- `RegisterClientError` from `api_client/src/errors.rs` (the
`#[from] SendMessageError` variant keeps its source name). -/
inductive RegisterClientError where
  | InvalidInput (s : String)
  | InvalidClientId (e : DsClientIdError)
  | UnexpectedResponse
  | RegisterClientError (e : SendMessageError)
  deriving DecidableEq, Repr

/-- `ListClientsError` from `api_client/src/errors.rs` (the source
names its `SendMessageError` variant `RegisterClientError`). -/
inductive ListClientsError where
  | UnexpectedResponse
  | RegisterClientError (e : SendMessageError)
  deriving DecidableEq, Repr

/-- `FetchMessagesError` from `api_client/src/errors.rs`. -/
inductive FetchMessagesError where
  | FetchMessagesError (e : SendMessageError)
  | UnexpectedResponse
  | DeserializationError (e : TlsError)
  deriving DecidableEq, Repr

/-- `UploadKeyPackagesError` from `api_client/src/errors.rs`. -/
inductive UploadKeyPackagesError where
  | UnexpectedResponse
  | UploadKeyPackageError (e : SendMessageError)
  deriving DecidableEq, Repr

/-- `CreateGroupError` from `api_client/src/errors.rs`. -/
inductive CreateGroupError where
  | UnexpectedResponse
  | CreateGroupError (e : SendMessageError)
  deriving DecidableEq, Repr

/-- `FetchKeyPackageError` from `api_client/src/errors.rs`. -/
inductive FetchKeyPackageError where
  | UnexpectedResponse
  | FetchKeyPackageError (e : SendMessageError)
  deriving DecidableEq, Repr

/-- `DistributeGroupMessageError` from `api_client/src/errors.rs`. -/
inductive DistributeGroupMessageError where
  | InvalidInput (s : String)
  | UnexpectedResponse
  | DistributeGroupMessageError (e : SendMessageError)
  deriving DecidableEq, Repr

/-- `DistributeWelcomeError` from `api_client/src/errors.rs`. -/
inductive DistributeWelcomeError where
  | InvalidInput (s : String)
  | UnexpectedResponse
  | DistributeWelcomeError (e : SendMessageError)
  deriving DecidableEq, Repr

/-- `DeleteGroupError` from `api_client/src/errors.rs`. -/
inductive DeleteGroupError where
  | UnexpectedResponse
  | DeleteGroupError (e : SendMessageError)
  deriving DecidableEq, Repr

/-- `DeleteClientError` from `api_client/src/errors.rs`. -/
inductive DeleteClientError where
  | UnexpectedResponse
  | DeleteClientError (e : SendMessageError)
  deriving DecidableEq, Repr

/-- `DsConnection::send_message` (`api_client/src/lib.rs` lines 62-85),
from the point where the HTTP reply is available: classification of the
reply by status code (`reqwest::StatusCode::OK` is 200,
`INTERNAL_SERVER_ERROR` is 500).  On 200 the body bytes are decoded as
the response envelope (a decode failure converts, via `#[from]
tls_codec::Error`, to `PayloadSerializationError`); on 500 the body
text is surfaced verbatim as `MinimalDsError`; any other status is
`NetworkError` carrying it.  `bodyText` is the UTF-8 reading of the
body performed by the external `response.text()`; request
serialization and the transport-level failure paths (both external) are
outside this function. -/
def DsConnection.send_message
    (kpDec : List Nat → Except TlsError (KeyPackageIn × List Nat))
    (status : Nat) (body : List Nat) (bodyText : String) :
    Except SendMessageError MinimalDsResponseIn :=
  if status = 200 then
    match MinimalDsResponseIn.tls_deserialize_exact_bytes kpDec body with
    | .ok response => .ok response
    | .error e => .error (.PayloadSerializationError e)
  else if status = 500 then
    .error (.MinimalDsError bodyText)
  else
    .error (.NetworkError status)

/-- `ApiClient` from `api_client/src/lib.rs` lines 137-142 (the
`DsConnection` field is replaced by passing each operation the outcome
of its `send_message` call). -/
structure ApiClient where
  client_id : DsClientId
  auth_token : AuthToken
  last_seen_message_sequence_number : Nat
  deriving DecidableEq, Repr

/-- `ApiClient::client_credentials` (`api_client/src/lib.rs` lines
304-309). -/
def ApiClient.client_credentials (c : ApiClient) : ClientCredentials :=
  ⟨c.client_id, c.auth_token⟩

/-- `UnregisteredApiClient::register` (`api_client/src/lib.rs` lines
103-132).  The second component is the request handed to
`send_message`, `none` when no network call is issued; `transport` is
the outcome `send_message` would return. -/
def UnregisteredApiClient.register (key_packages : List MlsMessageOut)
    (last_resort_key_package : MlsMessageOut)
    (transport : Except SendMessageError MinimalDsResponseIn) :
    Except RegisterClientError ApiClient × Option MinimalDsMessageOut :=
  match last_resort_key_package.body with
  | .KeyPackage key_package =>
    match DsClientId.from_serialized_credential
        key_package.serialized_credential_content with
    | .error e => (.error (.InvalidClientId e), none)
    | .ok client_id =>
      let message := MinimalDsMessageOut.RegisterClient key_packages
        last_resort_key_package
      match transport with
      | .error e => (.error (.RegisterClientError e), some message)
      | .ok (.AuthToken token) =>
        (.ok ⟨client_id, token, 0⟩, some message)
      | .ok _ => (.error .UnexpectedResponse, some message)
  | _ => (.error (.InvalidInput ("MlsMessageOut is not a KeyPackage.")), none)

/-- `ApiClient::upload_key_packages` (`api_client/src/lib.rs` lines
147-160): builds the request, sends it, and returns `Ok(())` on any
successfully decoded response, without inspecting its variant.  The
second component is the request handed to `send_message`. -/
def ApiClient.upload_key_packages (c : ApiClient)
    (key_packages : List MlsMessageOut)
    (last_resort_key_package : MlsMessageOut)
    (transport : Except SendMessageError MinimalDsResponseIn) :
    Except UploadKeyPackagesError Unit × MinimalDsMessageOut :=
  let request := MinimalDsMessageOut.UploadKeyPackages
    c.client_credentials key_packages last_resort_key_package
  match transport with
  | .error e => (.error (.UploadKeyPackageError e), request)
  | .ok _ => (.ok (), request)

/-- `ApiClient::list_clients` (`api_client/src/lib.rs` lines 163-171):
expects the `ListClients` variant (the per-id `.into()` conversion is
the identity), any other variant is `UnexpectedResponse`.  The second
component is the request handed to `send_message`. -/
def ApiClient.list_clients (c : ApiClient)
    (transport : Except SendMessageError MinimalDsResponseIn) :
    Except ListClientsError (List DsClientId) × MinimalDsMessageOut :=
  match transport with
  | .error e => (.error (.RegisterClientError e), .ListClients)
  | .ok (.ListClients ids) => (.ok ids, .ListClients)
  | .ok _ => (.error .UnexpectedResponse, .ListClients)

/-- `ApiClient::create_group` (`api_client/src/lib.rs` lines 174-187):
returns `Ok(())` on any successfully decoded response, without
inspecting its variant.  The second component is the request handed to
`send_message`. -/
def ApiClient.create_group (c : ApiClient) (group_info : MlsMessageOut)
    (ratchet_tree : RatchetTree)
    (transport : Except SendMessageError MinimalDsResponseIn) :
    Except CreateGroupError Unit × MinimalDsMessageOut :=
  let request := MinimalDsMessageOut.CreateGroup c.client_credentials
    group_info ratchet_tree
  match transport with
  | .error e => (.error (.CreateGroupError e), request)
  | .ok _ => (.ok (), request)

/-- `ApiClient::fetch_key_package` (`api_client/src/lib.rs` lines
190-202): expects the `KeyPackageOption` variant, any other variant is
`UnexpectedResponse`.  The second component is the request handed to
`send_message`. -/
def ApiClient.fetch_key_package (c : ApiClient) (client_id : DsClientId)
    (transport : Except SendMessageError MinimalDsResponseIn) :
    Except FetchKeyPackageError (Option KeyPackageIn) × MinimalDsMessageOut :=
  let request := MinimalDsMessageOut.FetchKeyPackage client_id
  match transport with
  | .error e => (.error (.FetchKeyPackageError e), request)
  | .ok (.KeyPackageOption key_package_option) =>
    (.ok key_package_option, request)
  | .ok _ => (.error .UnexpectedResponse, request)

/-- `ApiClient::distribute_group_message` (`api_client/src/lib.rs`
lines 208-228): local validation through `AssistedMessageOut::new`
(errors mapped to `InvalidInput` with the source's strings, no request
sent), then sends and returns `Ok(())` on any successfully decoded
response.  The second component is the request sent, `none` when the
validation failed. -/
def ApiClient.distribute_group_message (c : ApiClient)
    (message : MlsMessageOut) (group_info_option : Option MlsMessageOut)
    (transport : Except SendMessageError MinimalDsResponseIn) :
    Except DistributeGroupMessageError Unit × Option MinimalDsMessageOut :=
  match AssistedMessageOut.new message group_info_option with
  | .error e =>
    (.error (.InvalidInput (match e with
      | .InvalidMessage => "Unexpected MlsMessageBody."
      | .MissingGroupInfo => "Missing GroupInfo.")), none)
  | .ok assisted =>
    let request := MinimalDsMessageOut.DistributeGroupMessage
      c.client_credentials assisted
    match transport with
    | .error e => (.error (.DistributeGroupMessageError e), some request)
    | .ok _ => (.ok (), some request)

/-- `ApiClient::distribute_welcome` (`api_client/src/lib.rs` lines
232-245): local validation that the body is a welcome (else
`InvalidInput` with the source's string, no request sent), then sends
and returns `Ok(())` on any successfully decoded response.  The second
component is the request sent, `none` when the validation failed. -/
def ApiClient.distribute_welcome (c : ApiClient) (message : MlsMessageOut)
    (transport : Except SendMessageError MinimalDsResponseIn) :
    Except DistributeWelcomeError Unit × Option MinimalDsMessageOut :=
  match message.body with
  | .Welcome _ =>
    let request := MinimalDsMessageOut.DistributeWelcome message
    match transport with
    | .error e => (.error (.DistributeWelcomeError e), some request)
    | .ok _ => (.ok (), some request)
  | _ =>
    (.error (.InvalidInput ("MlsMessageOut is not a Welcome message.")), none)

/-- `DsQueueMessage::deserialize` (`types/src/lib.rs` lines 237-239):
decode the payload bytes with the external
`MlsMessageIn::tls_deserialize_exact_bytes`, passed here as the
parameter `dec`. -/
def DsQueueMessage.deserialize
    (dec : List Nat → Except TlsError MlsMessageIn)
    (m : DsQueueMessage) : Except TlsError MlsMessageIn :=
  dec m.message

/-- `ApiClient::fetch_messages` (`api_client/src/lib.rs` lines
248-272).  `dec` is the external `MlsMessageIn` decoder used by
`DsQueueMessage::deserialize`; `transport` is the outcome of the
`send_message` call (the request carries the current cursor and
`number_of_messages: 100`).  Returns the client as left after the call
(the `&mut self` state) and the result.  Mirroring the source's
statement order, on a `FetchMessages` response the cursor field is
assigned `response.messages.last().map(|m| m.sequence_number)
.unwrap_or(0)` first, and only then are the payloads decoded, the first
failure aborting the whole batch via `?`.  The request sent (built
before the exchange, with `number_of_messages: 100`) is the last
component of the result. -/
def ApiClient.fetch_messages (dec : List Nat → Except TlsError MlsMessageIn)
    (c : ApiClient)
    (transport : Except SendMessageError MinimalDsResponseIn) :
    ApiClient × Except FetchMessagesError (List MlsMessageIn)
      × MinimalDsMessageOut :=
  let request := MinimalDsMessageOut.FetchMessages c.client_credentials
    c.last_seen_message_sequence_number 100
  match transport with
  | .error e => (c, .error (.FetchMessagesError e), request)
  | .ok (.FetchMessages response) =>
    let updated := { c with last_seen_message_sequence_number :=
      ((response.messages.getLast?.map
        (fun m => m.sequence_number)).getD 0) }
    match response.messages.mapM
        (fun m => m.message.deserialize dec) with
    | .ok messages => (updated, .ok messages, request)
    | .error e => (updated, .error (.DeserializationError e), request)
  | .ok _ => (c, .error .UnexpectedResponse, request)

/-- `ApiClient::delete_group` (`api_client/src/lib.rs` lines 275-283):
returns `Ok(())` on any successfully decoded response, without
inspecting its variant.  The second component is the request handed to
`send_message`. -/
def ApiClient.delete_group (c : ApiClient) (group_id : DsGroupId)
    (transport : Except SendMessageError MinimalDsResponseIn) :
    Except DeleteGroupError Unit × MinimalDsMessageOut :=
  let request := MinimalDsMessageOut.DeleteGroup c.client_credentials group_id
  match transport with
  | .error e => (.error (.DeleteGroupError e), request)
  | .ok _ => (.ok (), request)

/-- `ApiClient::delete_client` (`api_client/src/lib.rs` lines 286-294):
returns `Ok(())` on any successfully decoded response, without
inspecting its variant.  The second component is the request handed to
`send_message`. -/
def ApiClient.delete_client (c : ApiClient) (client_id : DsClientId)
    (transport : Except SendMessageError MinimalDsResponseIn) :
    Except DeleteClientError Unit × MinimalDsMessageOut :=
  let request := MinimalDsMessageOut.DeleteClient c.client_credentials
    client_id
  match transport with
  | .error e => (.error (.DeleteClientError e), request)
  | .ok _ => (.ok (), request)

/-- Concrete 16-byte all-zero UUID value, for concrete evaluations. -/
def zeroUuid : TlsUuid :=
  ⟨List.replicate 16 0⟩

/-- Concrete client id wrapping `zeroUuid`. -/
def zeroClientId : DsClientId :=
  ⟨zeroUuid⟩

/-- Concrete 32-byte all-zero auth token, for concrete evaluations. -/
def token32 : AuthToken :=
  ⟨List.replicate 32 0⟩

/-- Concrete registered session whose cursor is 5, for concrete
evaluations. -/
def clientAt5 : ApiClient :=
  ⟨zeroClientId, token32, 5⟩

/-- Concrete external-`MlsMessageIn` decoder that accepts every
payload, wrapping its bytes. -/
def decodeAllOk : List Nat → Except TlsError MlsMessageIn :=
  fun b => .ok ⟨b⟩

/-- Concrete external-`MlsMessageIn` decoder that rejects every payload
with `EndOfStream`. -/
def decodeFailEOS : List Nat → Except TlsError MlsMessageIn :=
  fun _ => .error .EndOfStream

/-- Concrete external-`KeyPackageIn` decoder that rejects every payload
with `EndOfStream`. -/
def kpDecodeFail : List Nat → Except TlsError (KeyPackageIn × List Nat) :=
  fun _ => .error .EndOfStream

/-- Concrete `KeyPackage` whose serialized credential content is the
variable-length encoding (one length byte, 16) of a 16-byte identity of
ones. -/
def kp16 : KeyPackage :=
  ⟨16 :: List.replicate 16 1⟩

/-- The client id the identity embedded in `kp16` derives to. -/
def clientId16 : DsClientId :=
  ⟨⟨List.replicate 16 1⟩⟩

/-- Claim C1: with cursor 5 and an empty `FetchMessages` batch,
`fetch_messages` does return successfully with an empty message
sequence, but `response.messages.last().map(..).unwrap_or(0)` resets
the cursor to 0 instead of leaving it at 5: the code contradicts the
cursor's own last-seen semantics (the next request would re-fetch
everything from sequence number 0). -/
theorem fetch_messages_empty_batch_resets_cursor :
    ApiClient.fetch_messages decodeAllOk clientAt5
        (.ok (.FetchMessages ⟨[]⟩)) =
      (⟨zeroClientId, token32, 0⟩, .ok [],
        .FetchMessages ⟨zeroClientId, token32⟩ 5 100) := by
  rfl

/-- Claim C2: with cursor 5 and a batch holding one message with
sequence number 6 whose payload fails to decode, `fetch_messages`
does fail for the whole batch, but the cursor has already been
assigned 6 before the decode loop runs, so it does not equal its value
before the call. -/
theorem fetch_messages_decode_failure_advances_cursor :
    ApiClient.fetch_messages decodeFailEOS clientAt5
        (.ok (.FetchMessages ⟨[⟨⟨[1]⟩, 6⟩]⟩)) =
      (⟨zeroClientId, token32, 6⟩,
        .error (.DeserializationError .EndOfStream),
        .FetchMessages ⟨zeroClientId, token32⟩ 5 100) := by
  rfl

/-- Claim C3: a successful non-empty fetch from cursor 5 with sequence
numbers 6, 7, 9 does set the cursor to 9 (the claim's first half), but
a following fetch with an empty batch resets it to 0, so the cursor
decreases across that sequence of calls. -/
theorem fetch_messages_cursor_decreases_after_empty_fetch :
    ApiClient.last_seen_message_sequence_number
      (ApiClient.fetch_messages decodeAllOk clientAt5
        (.ok (.FetchMessages ⟨[⟨⟨[]⟩, 6⟩, ⟨⟨[]⟩, 7⟩, ⟨⟨[]⟩, 9⟩]⟩))).1 = 9 ∧
    ApiClient.last_seen_message_sequence_number
      (ApiClient.fetch_messages decodeAllOk
        (ApiClient.fetch_messages decodeAllOk clientAt5
          (.ok (.FetchMessages ⟨[⟨⟨[]⟩, 6⟩, ⟨⟨[]⟩, 7⟩, ⟨⟨[]⟩, 9⟩]⟩))).1
        (.ok (.FetchMessages ⟨[]⟩))).1 = 0 := by
  exact ⟨rfl, rfl⟩

/-- Claim C8: for every 16-byte identifier value, deserializing its
serialization yields the original value with an empty remainder, for
`TlsUuid` and the derived `DsClientId` and `DsGroupId` codecs; and
deserializing any byte string shorter than 16 bytes fails with the
`EndOfStream` framing error. -/
theorem tls_uuid_roundtrip_and_truncation (u : TlsUuid) (bytes : List Nat)
    (hu : u.id.length = 16) (hshort : bytes.length < 16) :
    TlsUuid.tls_deserialize_bytes u.tls_serialize = .ok (u, []) ∧
    DsClientId.tls_deserialize_bytes (DsClientId.tls_serialize ⟨u⟩) =
      .ok (⟨u⟩, []) ∧
    DsGroupId.tls_deserialize_bytes (DsGroupId.tls_serialize ⟨u⟩) =
      .ok (⟨u⟩, []) ∧
    TlsUuid.tls_deserialize_bytes bytes = .error .EndOfStream ∧
    DsClientId.tls_deserialize_bytes bytes = .error .EndOfStream ∧
    DsGroupId.tls_deserialize_bytes bytes = .error .EndOfStream := by
  have base : TlsUuid.tls_deserialize_bytes u.id = .ok (u, []) := by
    unfold TlsUuid.tls_deserialize_bytes UUID_LENGTH
    rw [if_neg (by omega), List.take_of_length_le (by omega),
      List.drop_eq_nil_of_le (by omega)]
  have berr : TlsUuid.tls_deserialize_bytes bytes = .error .EndOfStream := by
    unfold TlsUuid.tls_deserialize_bytes UUID_LENGTH
    rw [if_pos (by omega)]
  refine ⟨base, ?_, ?_, berr, ?_, ?_⟩ <;>
    simp [DsClientId.tls_deserialize_bytes, DsGroupId.tls_deserialize_bytes,
      DsClientId.tls_serialize, DsGroupId.tls_serialize,
      TlsUuid.tls_serialize, base, berr]

/-- Witness for `tls_uuid_roundtrip_and_truncation` at the all-zero
16-byte value and a 3-byte truncated input. -/
theorem tls_uuid_roundtrip_and_truncation_witness :
    TlsUuid.tls_deserialize_bytes zeroUuid.tls_serialize =
      .ok (zeroUuid, []) ∧
    TlsUuid.tls_deserialize_bytes [1, 2, 3] = .error .EndOfStream :=
  ⟨(tls_uuid_roundtrip_and_truncation zeroUuid [1, 2, 3] (by decide)
      (by decide)).1,
    (tls_uuid_roundtrip_and_truncation zeroUuid [1, 2, 3] (by decide)
      (by decide)).2.2.2.1⟩

/-- Claim C9: decoding a response envelope whose discriminant byte is
outside the declared range 0-4 fails with a framing error
(`UnknownValue` carrying the tag), for any `KeyPackageIn` payload
decoder, both for the plain and the exact decoding entry point. -/
theorem response_envelope_rejects_unknown_tag
    (kpDec : List Nat → Except TlsError (KeyPackageIn × List Nat))
    (tag : Nat) (rest : List Nat) (h : 5 ≤ tag) :
    MinimalDsResponseIn.tls_deserialize_bytes kpDec (tag :: rest) =
      .error (.UnknownValue tag) ∧
    MinimalDsResponseIn.tls_deserialize_exact_bytes kpDec (tag :: rest) =
      .error (.UnknownValue tag) := by
  have h1 : MinimalDsResponseIn.tls_deserialize_bytes kpDec (tag :: rest) =
      .error (.UnknownValue tag) := by
    show (if tag = 0 then _ else if tag = 1 then _ else if tag = 2 then _
      else if tag = 3 then _ else if tag = 4 then _
      else Except.error (TlsError.UnknownValue tag)) = _
    rw [if_neg (by omega), if_neg (by omega), if_neg (by omega),
      if_neg (by omega), if_neg (by omega)]
  refine ⟨h1, ?_⟩
  unfold MinimalDsResponseIn.tls_deserialize_exact_bytes
  rw [h1]

/-- Witness for `response_envelope_rejects_unknown_tag` at tag 7. -/
theorem response_envelope_rejects_unknown_tag_witness :
    MinimalDsResponseIn.tls_deserialize_bytes kpDecodeFail [7] =
      .error (.UnknownValue 7) :=
  (response_envelope_rejects_unknown_tag kpDecodeFail 7 [] (by decide)).1

/-- Claim C10: `DsClientId::from_serialized_credential` succeeds
exactly when its input is a well-formed exact variable-length byte
vector with 16 bytes of content: a well-formed vector of any other
content length yields `InvalidUuid` (carrying the offending length), a
malformed vector encoding yields `InvalidCredential` (carrying the
framing error); and `register` rejects every fallback key package whose
embedded identity fails this derivation, with no network request
issued. -/
theorem from_serialized_credential_characterization
    (sc content : List Nat) (e : TlsError) :
    (VLBytes.tls_deserialize_exact_bytes sc = .ok content →
      content.length = 16 →
      DsClientId.from_serialized_credential sc = .ok ⟨⟨content⟩⟩) ∧
    (VLBytes.tls_deserialize_exact_bytes sc = .ok content →
      content.length ≠ 16 →
      DsClientId.from_serialized_credential sc =
        .error (.InvalidUuid (.ByteLength content.length))) ∧
    (VLBytes.tls_deserialize_exact_bytes sc = .error e →
      DsClientId.from_serialized_credential sc =
        .error (.InvalidCredential e)) ∧
    (∀ kps kp transport e2,
      DsClientId.from_serialized_credential
        (KeyPackage.serialized_credential_content kp) = .error e2 →
      UnregisteredApiClient.register kps ⟨.KeyPackage kp⟩ transport =
        (.error (.InvalidClientId e2), none)) := by
  refine ⟨?_, ?_, ?_, ?_⟩
  · intro hok hlen
    simp [DsClientId.from_serialized_credential, hok, DsClientId.try_from,
      Uuid.from_slice, UUID_LENGTH, hlen]
  · intro hok hlen
    simp [DsClientId.from_serialized_credential, hok, DsClientId.try_from,
      Uuid.from_slice, UUID_LENGTH, hlen]
  · intro herr
    simp [DsClientId.from_serialized_credential, herr]
  · intro kps kp transport e2 herr
    simp [UnregisteredApiClient.register, herr]

/-- Witness for `from_serialized_credential_characterization`: the
16-byte identity of `kp16` succeeds, a 2-byte identity yields
`InvalidUuid`, and a truncated vector encoding yields
`InvalidCredential`. -/
theorem from_serialized_credential_characterization_witness :
    DsClientId.from_serialized_credential (16 :: List.replicate 16 1) =
      .ok clientId16 ∧
    DsClientId.from_serialized_credential [2, 1, 2] =
      .error (.InvalidUuid (.ByteLength 2)) ∧
    DsClientId.from_serialized_credential [5, 1] =
      .error (.InvalidCredential .EndOfStream) :=
  ⟨(from_serialized_credential_characterization (16 :: List.replicate 16 1)
      (List.replicate 16 1) .EndOfStream).1 rfl (by decide),
    (from_serialized_credential_characterization [2, 1, 2] [1, 2]
      .EndOfStream).2.1 rfl (by decide),
    (from_serialized_credential_characterization [5, 1] []
      .EndOfStream).2.2.1 rfl⟩

/-- Claim C7: `send_message` classifies each dispatched request's
outcome exactly by the HTTP status: on 200 the body is decoded as the
response envelope, with a decode failure surfaced as a
framing/serialization error and never as success; on 500 the body
string is surfaced verbatim inside `MinimalDsError`; on any other
status a `NetworkError` carries the raw status; and a success result
occurs only under status 200. -/
theorem send_message_classification
    (kpDec : List Nat → Except TlsError (KeyPackageIn × List Nat))
    (status : Nat) (body : List Nat) (bodyText : String)
    (r : MinimalDsResponseIn) (e : TlsError) :
    (status = 200 →
      MinimalDsResponseIn.tls_deserialize_exact_bytes kpDec body = .ok r →
      DsConnection.send_message kpDec status body bodyText = .ok r) ∧
    (status = 200 →
      MinimalDsResponseIn.tls_deserialize_exact_bytes kpDec body =
        .error e →
      DsConnection.send_message kpDec status body bodyText =
        .error (.PayloadSerializationError e)) ∧
    (status = 500 →
      DsConnection.send_message kpDec status body bodyText =
        .error (.MinimalDsError bodyText)) ∧
    (status ≠ 200 → status ≠ 500 →
      DsConnection.send_message kpDec status body bodyText =
        .error (.NetworkError status)) ∧
    (∀ response,
      DsConnection.send_message kpDec status body bodyText =
        .ok response → status = 200) := by
  refine ⟨?_, ?_, ?_, ?_, ?_⟩
  · intro hs hdec
    subst hs
    simp [DsConnection.send_message, hdec]
  · intro hs hdec
    subst hs
    simp [DsConnection.send_message, hdec]
  · intro hs
    subst hs
    simp [DsConnection.send_message]
  · intro hs hs2
    simp [DsConnection.send_message, hs, hs2]
  · intro response hok
    by_contra hne
    rw [DsConnection.send_message, if_neg hne] at hok
    split at hok <;> exact Except.noConfusion hok

/-- Witness for `send_message_classification`: the spec's
server-failure scenario, status 500 with body text carried verbatim,
and the generic-signal case at status 404. -/
theorem send_message_classification_witness :
    DsConnection.send_message kpDecodeFail 500 []
        ("group not found") =
      .error (.MinimalDsError ("group not found")) ∧
    DsConnection.send_message kpDecodeFail 404 [] ("") =
      .error (.NetworkError 404) :=
  ⟨(send_message_classification kpDecodeFail 500 [] ("group not found")
      .Ok .EndOfStream).2.2.1 rfl,
    (send_message_classification kpDecodeFail 404 [] ("")
      .Ok .EndOfStream).2.2.2.1 (by decide) (by decide)⟩

/-- Claim C5 counterexample: with the claim's example input, a fallback
key package whose embedded identity is the two bytes 1, 2 (serialized
credential content: the variable-length encoding `[2, 1, 2]`), and the
DS replying with an auth token, `register` does not produce a session
whose `ClientId` derives from those bytes: the identity is not a
16-byte UUID, so `register` fails locally with `InvalidClientId` and
issues no request. -/
theorem register_example_identity_rejected :
    UnregisteredApiClient.register [] ⟨.KeyPackage ⟨[2, 1, 2]⟩⟩
        (.ok (.AuthToken token32)) =
      (.error (.InvalidClientId (.InvalidUuid (.ByteLength 2))), none) := by
  rfl

/-- Claim C5 (amended): for every register call on an unregistered
client, if the fallback key package's embedded identity does not decode
as a valid identifier, `register` fails with that local validation
error and no request is issued; if the identity derives a client id and
the DS replies with the `AuthToken` variant, the resulting session
holds that auth token, the locally derived client id, and cursor 0. -/
theorem register_constructs_session_locally
    (kps : List MlsMessageOut) (kp : KeyPackage) (t : AuthToken)
    (cid : DsClientId)
    (transport : Except SendMessageError MinimalDsResponseIn)
    (e : DsClientIdError) :
    (DsClientId.from_serialized_credential
        kp.serialized_credential_content = .error e →
      UnregisteredApiClient.register kps ⟨.KeyPackage kp⟩ transport =
        (.error (.InvalidClientId e), none)) ∧
    (DsClientId.from_serialized_credential
        kp.serialized_credential_content = .ok cid →
      UnregisteredApiClient.register kps ⟨.KeyPackage kp⟩
          (.ok (.AuthToken t)) =
        (.ok ⟨cid, t, 0⟩,
          some (.RegisterClient kps ⟨.KeyPackage kp⟩))) := by
  constructor
  · intro herr
    simp [UnregisteredApiClient.register, herr]
  · intro hok
    simp [UnregisteredApiClient.register, hok]

/-- Witness for `register_constructs_session_locally`: the 16-byte
identity of `kp16` with an `AuthToken` reply yields the session with
that token, the derived id `clientId16`, and cursor 0. -/
theorem register_constructs_session_locally_witness :
    UnregisteredApiClient.register [] ⟨.KeyPackage kp16⟩
        (.ok (.AuthToken token32)) =
      (.ok ⟨clientId16, token32, 0⟩,
        some (.RegisterClient [] ⟨.KeyPackage kp16⟩)) :=
  (register_constructs_session_locally [] kp16 token32 clientId16
    (.ok (.AuthToken token32)) (.InvalidCredential .EndOfStream)).2 rfl

/-- Claim C6: `distribute_welcome` on any message that is not of
welcome kind fails with the local validation error and issues no
request; `distribute_group_message` on any commit message without the
companion group info fails with the local validation error and issues
no request. -/
theorem distribute_local_validation (c : ApiClient)
    (transport : Except SendMessageError MinimalDsResponseIn) :
    (∀ message : MlsMessageOut, message.body.isWelcome = false →
      ApiClient.distribute_welcome c message transport =
        (.error (.InvalidInput ("MlsMessageOut is not a Welcome message.")),
          none)) ∧
    (∀ message : MlsMessageOut, message.body.isCommit = true →
      ApiClient.distribute_group_message c message none transport =
        (.error (.InvalidInput ("Missing GroupInfo.")), none)) := by
  constructor
  · intro message h
    obtain ⟨body⟩ := message
    cases body <;>
      first
        | rfl
        | simp [MlsMessageBodyOut.isWelcome] at h
  · intro message h
    obtain ⟨body⟩ := message
    cases body with
    | PublicMessage ct payload =>
      cases ct with
      | commit => rfl
      | application => simp [MlsMessageBodyOut.isCommit] at h
      | proposal => simp [MlsMessageBodyOut.isCommit] at h
    | PrivateMessage ct payload =>
      cases ct with
      | commit => rfl
      | application => simp [MlsMessageBodyOut.isCommit] at h
      | proposal => simp [MlsMessageBodyOut.isCommit] at h
    | Welcome payload => simp [MlsMessageBodyOut.isCommit] at h
    | GroupInfo payload => simp [MlsMessageBodyOut.isCommit] at h
    | KeyPackage kp => simp [MlsMessageBodyOut.isCommit] at h

/-- Witness for `distribute_local_validation`: a group-info message
handed to `distribute_welcome`, and a public commit without group info
handed to `distribute_group_message`. -/
theorem distribute_local_validation_witness :
    ApiClient.distribute_welcome clientAt5 ⟨.GroupInfo 0⟩ (.ok .Ok) =
      (.error (.InvalidInput ("MlsMessageOut is not a Welcome message.")),
        none) ∧
    ApiClient.distribute_group_message clientAt5 ⟨.PublicMessage .commit 0⟩
        none (.ok .Ok) =
      (.error (.InvalidInput ("Missing GroupInfo.")), none) :=
  ⟨(distribute_local_validation clientAt5 (.ok .Ok)).1 ⟨.GroupInfo 0⟩ rfl,
    (distribute_local_validation clientAt5 (.ok .Ok)).2
      ⟨.PublicMessage .commit 0⟩ rfl⟩

/-- Claim C4 counterexample: `upload_key_packages` with a structurally
valid reply of the wrong variant (a client list) returns success, not
an unexpected-response error. -/
theorem upload_accepts_mismatched_variant :
    (ApiClient.upload_key_packages clientAt5 [] ⟨.GroupInfo 0⟩
        (.ok (.ListClients []))).1 = .ok () ∧
    (ApiClient.upload_key_packages clientAt5 [] ⟨.GroupInfo 0⟩
        (.ok (.ListClients []))).1 ≠ .error .UnexpectedResponse := by
  refine ⟨rfl, ?_⟩
  intro h
  exact Except.noConfusion h

/-- Claim C4 (amended): the operations that consume a response payload
(`register`, `list_clients`, `fetch_key_package`, `fetch_messages`)
return an unexpected-response error on every structurally valid but
mismatched variant and never succeed on one, while the acknowledge-only
operations (`upload_key_packages`, `create_group`,
`distribute_group_message`, `distribute_welcome`, `delete_group`,
`delete_client`) treat every structurally valid response variant as an
acknowledgment and return success without inspecting it. -/
theorem response_variant_handling (resp : MinimalDsResponseIn)
    (c : ApiClient) (dec : List Nat → Except TlsError MlsMessageIn)
    (kps : List MlsMessageOut) (kp : KeyPackage) (cid target : DsClientId)
    (gid : DsGroupId) (m gi w : MlsMessageOut) (rt : RatchetTree)
    (giOpt : Option MlsMessageOut) (am : AssistedMessageOut)
    (hid : DsClientId.from_serialized_credential
      kp.serialized_credential_content = .ok cid) :
    (resp.isAuthToken = false →
      (UnregisteredApiClient.register kps ⟨.KeyPackage kp⟩ (.ok resp)).1 =
        .error .UnexpectedResponse) ∧
    (resp.isListClients = false →
      (ApiClient.list_clients c (.ok resp)).1 =
        .error .UnexpectedResponse) ∧
    (resp.isKeyPackageOption = false →
      (ApiClient.fetch_key_package c target (.ok resp)).1 =
        .error .UnexpectedResponse) ∧
    (resp.isFetchMessages = false →
      (ApiClient.fetch_messages dec c (.ok resp)).2.1 =
        .error .UnexpectedResponse) ∧
    ((ApiClient.upload_key_packages c kps m (.ok resp)).1 = .ok ()) ∧
    ((ApiClient.create_group c gi rt (.ok resp)).1 = .ok ()) ∧
    (w.body.isWelcome = true →
      (ApiClient.distribute_welcome c w (.ok resp)).1 = .ok ()) ∧
    (AssistedMessageOut.new m giOpt = .ok am →
      (ApiClient.distribute_group_message c m giOpt (.ok resp)).1 =
        .ok ()) ∧
    ((ApiClient.delete_group c gid (.ok resp)).1 = .ok ()) ∧
    ((ApiClient.delete_client c target (.ok resp)).1 = .ok ()) := by
  refine ⟨?_, ?_, ?_, ?_, rfl, rfl, ?_, ?_, rfl, rfl⟩
  · intro h
    cases resp with
    | AuthToken t => simp [MinimalDsResponseIn.isAuthToken] at h
    | Ok => simp [UnregisteredApiClient.register, hid]
    | KeyPackageOption o => simp [UnregisteredApiClient.register, hid]
    | FetchMessages r => simp [UnregisteredApiClient.register, hid]
    | ListClients ids => simp [UnregisteredApiClient.register, hid]
  · intro h
    cases resp <;>
      first
        | rfl
        | simp [MinimalDsResponseIn.isListClients] at h
  · intro h
    cases resp <;>
      first
        | rfl
        | simp [MinimalDsResponseIn.isKeyPackageOption] at h
  · intro h
    cases resp <;>
      first
        | rfl
        | simp [MinimalDsResponseIn.isFetchMessages] at h
  · intro hw
    obtain ⟨body⟩ := w
    cases body <;>
      first
        | rfl
        | simp [MlsMessageBodyOut.isWelcome] at hw
  · intro ham
    simp [ApiClient.distribute_group_message, ham]

/-- Witness for `response_variant_handling` at the `Ok` response
variant: `list_clients` reports the mismatch while `delete_group`
acknowledges it. -/
theorem response_variant_handling_witness :
    (ApiClient.list_clients clientAt5 (.ok .Ok)).1 =
      .error .UnexpectedResponse ∧
    (ApiClient.delete_group clientAt5 ⟨zeroUuid⟩ (.ok .Ok)).1 = .ok () :=
  ⟨(response_variant_handling .Ok clientAt5 decodeAllOk [] kp16 clientId16
      zeroClientId ⟨zeroUuid⟩ ⟨.Welcome 0⟩ ⟨.GroupInfo 0⟩ ⟨.Welcome 0⟩ ⟨0⟩
      none ⟨⟨.Welcome 0⟩, none⟩ rfl).2.1 rfl,
    (response_variant_handling .Ok clientAt5 decodeAllOk [] kp16 clientId16
      zeroClientId ⟨zeroUuid⟩ ⟨.Welcome 0⟩ ⟨.GroupInfo 0⟩ ⟨.Welcome 0⟩ ⟨0⟩
      none ⟨⟨.Welcome 0⟩, none⟩ rfl).2.2.2.2.2.2.2.2.1⟩

end MinimalDs
